import Mathlib

/-!
Shallow embedding of the tklbam backup session orchestrator
(`cmd_backup.py`: the `get_profile` helper and the body of `main` after
option parsing and lock acquisition).

External collaborators (the Hub client, the persistent registry, the
backup engine, the hooks) are modelled at their interface boundary:
the Hub is an oracle of responses, the registry is an explicit record
threaded through every phase, and the engine / hook outcomes are inputs
of the run phase.  Warnings, prints and collaborator calls are recorded
in an event list so that call counts and call order are observable.
-/

namespace Tklbam

/-- An appliance profile, as cached in the registry.  Only the timestamp
field is consulted by the orchestrator (`registry.profile.timestamp`). -/
structure Profile where
  timestamp : Nat
  deriving DecidableEq, Repr

/-- Storage-access credentials, cached in the registry. -/
structure Credentials where
  accesskey : String
  secretkey : String
  deriving DecidableEq, Repr

/-- A Hub backup record: opaque backup id, target storage address and
subscription key. -/
structure BackupRecord where
  backup_id : String
  address : String
  key : String
  deriving DecidableEq, Repr

/-- The Hub error hierarchy of `hub.py`: `NotSubscribedError` and
`InvalidBackupError` are subtypes of the general `hub.Error`; every
other error is `generic`. -/
inductive HubErr
  | notSubscribed (msg : String)
  | invalidBackup (msg : String)
  | generic (msg : String)
  deriving DecidableEq, Repr

/-- The message carried by a Hub error (`str(e)`). -/
def HubErr.msg : HubErr → String
  | HubErr.notSubscribed m => m
  | HubErr.invalidBackup m => m
  | HubErr.generic m => m

/-- Models `isinstance(e, hub.NotSubscribedError)`. -/
def HubErr.isNotSubscribed : HubErr → Bool
  | HubErr.notSubscribed _ => true
  | _ => false

/-- Models `isinstance(e, hub.InvalidBackupError)`. -/
def HubErr.isInvalidBackup : HubErr → Bool
  | HubErr.invalidBackup _ => true
  | _ => false

/-- The run configuration (`conf.Conf`) after option parsing: the fields
that the orchestrator reads or writes.  Equality is field-by-field
(used by the implicit-resume detection `registry.backup_resume_conf == conf`). -/
structure Conf where
  simulate : Bool := false
  verbose : Bool := true
  address : Option String := none
  profile : Option Profile := none
  credentials : Option Credentials := none
  volsize : Nat := 50
  s3_parallel_uploads : Nat := 1
  full_backup : String := "1M"
  backup_skip_files : Bool := false
  backup_skip_database : Bool := false
  backup_skip_packages : Bool := false
  checkpoint_restore : Bool := false
  overrides : List String := []
  deriving DecidableEq, Repr

/-- The persistent registry (`registry.registry`): cached profile,
credentials, backup record (`hbr`), the resumable configuration slot,
and the identity keys.  Attribute assignment in the source persists the
value; here each phase returns the updated registry. -/
structure Registry where
  sub_apikey : String := ""
  key : String := ""
  profile : Option Profile := none
  credentials : Option Credentials := none
  hbr : Option BackupRecord := none
  backup_resume_conf : Option Conf := none
  deriving DecidableEq, Repr

/-- The Hub client as a response oracle: what each remote call would
return (or which Hub error it would raise) during this session. -/
structure Hub where
  get_new_profile : String → Option Nat → Except HubErr (Option Profile)
  get_credentials : Except HubErr Credentials
  get_backup_record : String → Except HubErr BackupRecord
  new_backup_record : String → String → Option String → Except HubErr BackupRecord

/-- Observable events of a session: warnings, prints, collaborator calls. -/
inductive Event
  | warn (msg : String)
  | printMsg (msg : String)
  | callGetNewProfile (version : String) (since_timestamp : Option Nat)
  | callGetCredentials
  | callGetBackupRecord (id : String)
  | callNewBackupRecord (key : String) (version : String) (server_id : Option String)
  | callSetInprogress (id : String) (flag : Bool)
  | callUpdatedBackup (address : Option String)
  | backupCtor (resume : Bool)
  | engineRun
  | engineCleanup
  | logFlush
  deriving DecidableEq, Repr

/-- True for the `warning: ...` lines (`warn(e)` calls). -/
def Event.isWarn : Event → Bool
  | Event.warn _ => true
  | _ => false

/-- True for the credential / backup-record negotiation calls
(`get_credentials`, `get_backup_record`, `new_backup_record`). -/
def Event.isNegotiationCall : Event → Bool
  | Event.callGetCredentials => true
  | Event.callGetBackupRecord _ => true
  | Event.callNewBackupRecord _ _ _ => true
  | _ => false

/-- True for the in-progress notifications (`set_backup_inprogress`). -/
def Event.isSetInprogress : Event → Bool
  | Event.callSetInprogress _ _ => true
  | _ => false

/-- True for the engine-related events: construction, run and cleanup. -/
def Event.isEngineEvent : Event → Bool
  | Event.backupCtor _ => true
  | Event.engineRun => true
  | Event.engineCleanup => true
  | _ => false

/-- Number of warnings in an event trace. -/
def warnCount (evs : List Event) : Nat := (evs.filter Event.isWarn).length

/-- An abnormal termination of the session: an uncaught Hub error, a
`fatal()` call (prints `error: msg` and exits 1), the unguarded
`NoneType` attribute access, or an exception of the engine / hooks. -/
inductive Exn
  | hubErr (e : HubErr)
  | fatalExit (msg : String)
  | attrError
  | engineError (msg : String)
  | hookError (msg : String)
  deriving DecidableEq, Repr

/-- Models `get_profile(hb)` (cmd_backup.py lines 125-145): ask the Hub
for a profile newer than the cached timestamp; on success with a
non-empty result replace the cache; on a Hub error re-raise when there
is no cached profile, otherwise warn once and keep the cache.  Returns
the events, and on success the updated registry together with the
returned `registry.profile`. -/
def get_profile (hb : Hub) (turnkey_version : String) (reg : Registry) :
    List Event × Except HubErr (Registry × Option Profile) :=
  let profile_timestamp := reg.profile.map Profile.timestamp
  let callEv := Event.callGetNewProfile turnkey_version profile_timestamp
  match hb.get_new_profile turnkey_version profile_timestamp with
  | Except.ok new_profile =>
      let reg' := match new_profile with
        | some p => { reg with profile := some p }
        | none => reg
      ([callEv], Except.ok (reg', reg'.profile))
  | Except.error e =>
      match reg.profile with
      | none => ([callEv], Except.error e)
      | some _ =>
          ([callEv, Event.warn ("using cached profile because of a Hub error: " ++ e.msg)],
           Except.ok (reg, reg.profile))

/-- Models lines 231-232: `if not conf.profile: conf.profile = get_profile(hb)`.
A re-raised Hub error aborts the session. -/
def profilePhase (hb : Hub) (turnkey_version : String) (reg : Registry) (conf : Conf) :
    List Event × Except Exn (Registry × Conf) :=
  if conf.profile.isNone then
    match get_profile hb turnkey_version reg with
    | (evs, Except.error e) => (evs, Except.error (Exn.hubErr e))
    | (evs, Except.ok (reg', p)) => (evs, Except.ok (reg', { conf with profile := p }))
  else ([], Except.ok (reg, conf))

/-- Models lines 234-249 (inside `if not conf.address`): refresh the
cached credentials from the Hub; a `NotSubscribedError` is fatal; any
other Hub error is warned about and the cached value (possibly absent)
is used; finally `conf.credentials = registry.credentials`. -/
def credentialsPhase (hb : Hub) (reg : Registry) (conf : Conf) :
    List Event × Except Exn (Registry × Conf) :=
  match hb.get_credentials with
  | Except.ok c =>
      let reg' := { reg with credentials := some c }
      ([Event.callGetCredentials],
       Except.ok (reg', { conf with credentials := reg'.credentials }))
  | Except.error e =>
      if e.isNotSubscribed then
        ([Event.callGetCredentials], Except.error (Exn.fatalExit e.msg))
      else
        ([Event.callGetCredentials, Event.warn e.msg],
         Except.ok (reg, { conf with credentials := reg.credentials }))

/-- Models lines 251-272 (inside `if not conf.address`): revalidate a
cached backup record by id; on `InvalidBackupError` discard the cache
with a warning; on any other Hub error keep the stale record with a
warning; when no record remains, create a new one with
`new_backup_record(registry.key, turnkey_version, server_id)` and
persist it; finally `conf.address = registry.hbr.address`.  An error of
the unguarded `new_backup_record` call aborts the session. -/
def hbrPhase (hb : Hub) (turnkey_version : String) (server_id : Option String)
    (reg : Registry) (conf : Conf) : List Event × Except Exn (Registry × Conf) :=
  let revalidated : Registry × List Event :=
    match reg.hbr with
    | some r =>
        match hb.get_backup_record r.backup_id with
        | Except.ok r2 =>
            ({ reg with hbr := some r2 }, [Event.callGetBackupRecord r.backup_id])
        | Except.error e =>
            if e.isInvalidBackup then
              ({ reg with hbr := none },
               [Event.callGetBackupRecord r.backup_id,
                Event.warn ("old backup record deleted, creating new ... ")])
            else
              (reg, [Event.callGetBackupRecord r.backup_id, Event.warn e.msg])
    | none => (reg, [])
  let reg1 := revalidated.1
  let evs1 := revalidated.2
  match reg1.hbr with
  | some r => (evs1, Except.ok (reg1, { conf with address := some r.address }))
  | none =>
      match hb.new_backup_record reg1.key turnkey_version server_id with
      | Except.error e =>
          (evs1 ++ [Event.callNewBackupRecord reg1.key turnkey_version server_id],
           Except.error (Exn.hubErr e))
      | Except.ok r =>
          (evs1 ++ [Event.callNewBackupRecord reg1.key turnkey_version server_id],
           Except.ok ({ reg1 with hbr := some r }, { conf with address := some r.address }))

/-- Models the guard at line 234: the whole credential and backup-record
negotiation runs only when no manual target address was supplied. -/
def negotiationPhase (hb : Hub) (turnkey_version : String) (server_id : Option String)
    (reg : Registry) (conf : Conf) : List Event × Except Exn (Registry × Conf) :=
  if conf.address.isNone then
    match credentialsPhase hb reg conf with
    | (evs, Except.error e) => (evs, Except.error e)
    | (evs, Except.ok (reg', conf')) =>
        match hbrPhase hb turnkey_version server_id reg' conf' with
        | (evs2, r) => (evs ++ evs2, r)
  else ([], Except.ok (reg, conf))

/-- Models lines 274-289, the resume decision: explicit resume fails
fatally under simulate mode or without a stored resumable configuration
and otherwise replaces the whole configuration with the stored one;
otherwise a non-simulated configuration equal to the stored one is an
implicit resume.  Returns the governing configuration and the final
resume flag. -/
def sessionPhase (reg : Registry) (conf : Conf) (opt_resume : Bool) :
    List Event × Except Exn (Conf × Bool) :=
  if opt_resume then
    if conf.simulate then
      ([], Except.error (Exn.fatalExit "--resume and --simulate incompatible"))
    else
      match reg.backup_resume_conf with
      | none => ([], Except.error (Exn.fatalExit "no previous backup session to resume from"))
      | some stored =>
          ([Event.printMsg ("ATTEMPTING TO RESUME ABORTED SESSION")],
           Except.ok (stored, true))
  else
    if ¬ conf.simulate ∧ reg.backup_resume_conf = some conf then
      ([Event.printMsg ("ATTEMPTING TO RESUME ABORTED SESSION")], Except.ok (conf, true))
    else
      ([], Except.ok (conf, false))

/-- Models lines 291-293: clear the resumable-configuration slot
unconditionally, then re-set it to the current configuration when not
simulating. -/
def rearm (reg : Registry) (conf : Conf) : Registry :=
  let reg1 := { reg with backup_resume_conf := (none : Option Conf) }
  if ¬ conf.simulate then { reg1 with backup_resume_conf := some conf } else reg1

/-- Models line 295: `not conf.simulate and registry.hbr and
registry.hbr.address == conf.address`. -/
def is_hub_address (reg : Registry) (conf : Conf) : Bool :=
  !conf.simulate &&
    (match reg.hbr with
     | some r => decide (some r.address = conf.address)
     | none => false)

/-- Outcomes of the collaborators inside the `try` body: does the pre
hook, the engine `run`, or the post hook raise, and with what. -/
structure RunWorld where
  preExn : Option Exn := none
  runExn : Option Exn := none
  postExn : Option Exn := none
  deriving DecidableEq, Repr

/-- The exception escaping the `try` body, if any: the pre hook raises
first, then the engine run, then the post hook. -/
def bodyExn (w : RunWorld) : Option Exn :=
  match w.preExn with
  | some e => some e
  | none =>
      match w.runExn with
      | some e => some e
      | none => w.postExn

/-- Events of the `try` body: when the pre hook raises, neither the
in-progress notification nor the engine run happen; otherwise the
engine is invoked after the notification. -/
def bodyEvents (w : RunWorld) (startEvs : List Event) : List Event :=
  match w.preExn with
  | some _ => []
  | none => startEvs ++ [Event.engineRun]

/-- Models lines 295-342, the run/cleanup supervisor: compute
`is_hub_address`, read `registry.hbr.backup_id` (a `NoneType` attribute
error when no record is cached), construct the engine, run the guarded
body whose `finally` block mirrors the in-progress notification and
flushes the captured log, clean up on failure unless checkpoint-restore
is set and re-raise, and on success either keep the simulate state or
clean up, clear the resumable slot and notify the Hub. -/
def supervisor (w : RunWorld) (opt_debug : Bool) (reg : Registry) (conf : Conf)
    (opt_resume : Bool) : List Event × Except Exn Registry :=
  match reg.hbr with
  | none => ([], Except.error Exn.attrError)
  | some r =>
      let iha := is_hub_address reg conf
      let startEvs := if iha then [Event.callSetInprogress r.backup_id true] else []
      let trapAtFinally := w.preExn.isSome || !opt_debug
      let finallyEvs :=
        (if iha then [Event.callSetInprogress r.backup_id false] else []) ++
        (if trapAtFinally then [Event.logFlush] else [])
      let frontEvs := Event.backupCtor opt_resume :: (bodyEvents w startEvs ++ finallyEvs)
      match bodyExn w with
      | some e =>
          (frontEvs ++ (if !conf.checkpoint_restore then [Event.engineCleanup] else []),
           Except.error e)
      | none =>
          (frontEvs ++
             (if conf.simulate then
                [Event.printMsg
                  ("Completed --simulate: Leaving /TKLBAM intact so you can manually inspect it")]
              else [Event.engineCleanup]) ++
             (if !conf.simulate then [Event.callUpdatedBackup conf.address] else []),
           Except.ok { reg with backup_resume_conf := (none : Option Conf) })

/-- The result of one session: its event trace and either the final
registry and governing configuration or the abnormal termination. -/
structure MainResult where
  events : List Event
  outcome : Except Exn (Registry × Conf)
  deriving Repr

/-- Models the body of `main` from line 226 on (after option parsing and
lock acquisition): the s3-parallel-uploads sanity warning, the profile
phase, the credential and backup-record negotiation (skipped under a
manual address), the resume decision, the re-arming of the resumable
slot, and the run/cleanup supervisor. -/
def tklbamMain (hb : Hub) (turnkey_version : String) (server_id : Option String)
    (w : RunWorld) (opt_debug : Bool)
    (reg0 : Registry) (conf0 : Conf) (opt_resume : Bool) : MainResult :=
  let s3Evs :=
    if conf0.s3_parallel_uploads > 1 ∧ conf0.s3_parallel_uploads > conf0.volsize / 5 then
      [Event.warn ("s3-parallel-uploads > volsize / 5 (minimum upload chunk is 5MB)")]
    else []
  match profilePhase hb turnkey_version reg0 conf0 with
  | (evs1, Except.error e) => ⟨s3Evs ++ evs1, Except.error e⟩
  | (evs1, Except.ok (reg1, conf1)) =>
      match negotiationPhase hb turnkey_version server_id reg1 conf1 with
      | (evs2, Except.error e) => ⟨s3Evs ++ evs1 ++ evs2, Except.error e⟩
      | (evs2, Except.ok (reg2, conf2)) =>
          match sessionPhase reg2 conf2 opt_resume with
          | (evs3, Except.error e) => ⟨s3Evs ++ evs1 ++ evs2 ++ evs3, Except.error e⟩
          | (evs3, Except.ok (conf3, resume3)) =>
              let reg3 := rearm reg2 conf3
              match supervisor w opt_debug reg3 conf3 resume3 with
              | (evs4, Except.error e) =>
                  ⟨s3Evs ++ evs1 ++ evs2 ++ evs3 ++ evs4, Except.error e⟩
              | (evs4, Except.ok reg4) =>
                  ⟨s3Evs ++ evs1 ++ evs2 ++ evs3 ++ evs4, Except.ok (reg4, conf3)⟩

/-- A Hub oracle whose every call fails with a generic (network-style)
error, used to instantiate theorems at concrete inputs. -/
def downHub : Hub where
  get_new_profile := fun _ _ => Except.error (HubErr.generic "hub is down")
  get_credentials := Except.error (HubErr.generic "hub is down")
  get_backup_record := fun _ => Except.error (HubErr.generic "hub is down")
  new_backup_record := fun _ _ _ => Except.error (HubErr.generic "hub is down")

/-- A Hub oracle whose every call succeeds, used to instantiate theorems
at concrete inputs. -/
def okHub : Hub where
  get_new_profile := fun _ _ => Except.ok (some ⟨7⟩)
  get_credentials := Except.ok ⟨"AK", "SK"⟩
  get_backup_record := fun id => Except.ok ⟨id, "s3://bucket/old", "key1"⟩
  new_backup_record := fun key _ _ => Except.ok ⟨"id-new", "s3://bucket/new", key⟩

/-- A Hub oracle whose credential call reports the appliance as not
subscribed. -/
def noSubHub : Hub :=
  { downHub with get_credentials := Except.error (HubErr.notSubscribed "not subscribed") }

/-- C1.  Profile negotiation: on a Hub error with no cached profile the
error propagates; on a Hub error with a cached profile the phase
succeeds, returns the cached profile with the registry unchanged, and
emits exactly one warning; on a successful fetch of a non-empty profile
the cache is replaced by the new profile. -/
theorem c1_profile_negotiation (hb : Hub) (v : String) (reg : Registry) :
    (∀ e : HubErr,
        hb.get_new_profile v (reg.profile.map Profile.timestamp) = Except.error e →
        (reg.profile = none → (get_profile hb v reg).2 = Except.error e) ∧
        (∀ p : Profile, reg.profile = some p →
            (get_profile hb v reg).2 = Except.ok (reg, some p) ∧
            warnCount (get_profile hb v reg).1 = 1)) ∧
    (∀ p : Profile,
        hb.get_new_profile v (reg.profile.map Profile.timestamp) = Except.ok (some p) →
        (get_profile hb v reg).2 = Except.ok ({ reg with profile := some p }, some p)) := by
  refine ⟨fun e he => ⟨fun hnone => ?_, fun p hp => ?_⟩, fun p hp => ?_⟩
  · simp only [hnone, Option.map_none'] at he
    simp [get_profile, he, hnone]
  · simp only [hp, Option.map_some'] at he
    exact ⟨by simp [get_profile, he, hp], by simp [get_profile, he, hp, warnCount, Event.isWarn]⟩
  · simp [get_profile, hp]

/-- Witness for C1: a concrete down Hub and a registry caching a profile
of timestamp 5 give back the cached profile with one warning. -/
theorem c1_profile_negotiation_witness :
    (get_profile downHub "16.0" { profile := some ⟨5⟩ }).2 =
        Except.ok ({ profile := some ⟨5⟩ }, some (⟨5⟩ : Profile)) ∧
    warnCount (get_profile downHub "16.0" { profile := some ⟨5⟩ }).1 = 1 :=
  ((c1_profile_negotiation downHub "16.0" { profile := some ⟨5⟩ }).1
      (HubErr.generic "hub is down") rfl).2 ⟨5⟩ rfl

/-- C2.  Credential negotiation on a Hub failure: a not-subscribed
failure is fatal regardless of any cached credentials; any other
failure emits exactly one warning and the run continues with
`conf.credentials = registry.credentials` (cached value if present,
absent otherwise), with no fatal error. -/
theorem c2_credential_negotiation (hb : Hub) (reg : Registry) (conf : Conf) (e : HubErr)
    (he : hb.get_credentials = Except.error e) :
    (e.isNotSubscribed = true →
        (credentialsPhase hb reg conf).2 = Except.error (Exn.fatalExit e.msg)) ∧
    (e.isNotSubscribed = false →
        (credentialsPhase hb reg conf).2 =
          Except.ok (reg, { conf with credentials := reg.credentials }) ∧
        warnCount (credentialsPhase hb reg conf).1 = 1) := by
  refine ⟨fun hns => ?_, fun hns => ⟨?_, ?_⟩⟩
  · simp [credentialsPhase, he, hns]
  · simp [credentialsPhase, he, hns]
  · simp [credentialsPhase, he, hns, warnCount, Event.isWarn]

/-- Witness for C2: with empty registry and configuration, a
not-subscribed Hub is fatal, while a generically failing Hub leaves the
run alive with absent credentials and one warning. -/
theorem c2_credential_negotiation_witness :
    (credentialsPhase noSubHub {} {}).2 = Except.error (Exn.fatalExit "not subscribed") ∧
    ((credentialsPhase downHub {} {}).2 =
        Except.ok ({}, { ({} : Conf) with credentials := ({} : Registry).credentials }) ∧
      warnCount (credentialsPhase downHub {} {}).1 = 1) :=
  ⟨(c2_credential_negotiation noSubHub {} {} (HubErr.notSubscribed "not subscribed") rfl).1 rfl,
   (c2_credential_negotiation downHub {} {} (HubErr.generic "hub is down") rfl).2 rfl⟩

/-- C3.  Backup record negotiation: a cached record is revalidated by
its id (and on success replaced by the fetched record, whose address
becomes the session address); on the distinguished invalid-backup error
the cache is discarded with a warning and a new record is created with
the registry key, the appliance version and the optional server id,
persisted, and its address adopted; on any other Hub error the stale
cached record is kept with a warning and no new record is created;
with no cached record a new one is created and persisted and its
address adopted. -/
theorem c3_backup_record_negotiation (hb : Hub) (v : String) (sid : Option String)
    (reg : Registry) (conf : Conf) :
    (∀ r r2, reg.hbr = some r → hb.get_backup_record r.backup_id = Except.ok r2 →
        (hbrPhase hb v sid reg conf).2 =
          Except.ok ({ reg with hbr := some r2 }, { conf with address := some r2.address }) ∧
        Event.callGetBackupRecord r.backup_id ∈ (hbrPhase hb v sid reg conf).1) ∧
    (∀ r e nr, reg.hbr = some r → hb.get_backup_record r.backup_id = Except.error e →
        e.isInvalidBackup = true → hb.new_backup_record reg.key v sid = Except.ok nr →
        (hbrPhase hb v sid reg conf).2 =
          Except.ok ({ reg with hbr := some nr }, { conf with address := some nr.address }) ∧
        Event.callNewBackupRecord reg.key v sid ∈ (hbrPhase hb v sid reg conf).1 ∧
        warnCount (hbrPhase hb v sid reg conf).1 = 1) ∧
    (∀ r e, reg.hbr = some r → hb.get_backup_record r.backup_id = Except.error e →
        e.isInvalidBackup = false →
        (hbrPhase hb v sid reg conf).2 =
          Except.ok (reg, { conf with address := some r.address }) ∧
        warnCount (hbrPhase hb v sid reg conf).1 = 1 ∧
        (∀ k v2 s, Event.callNewBackupRecord k v2 s ∉ (hbrPhase hb v sid reg conf).1)) ∧
    (∀ nr, reg.hbr = none → hb.new_backup_record reg.key v sid = Except.ok nr →
        (hbrPhase hb v sid reg conf).2 =
          Except.ok ({ reg with hbr := some nr }, { conf with address := some nr.address }) ∧
        Event.callNewBackupRecord reg.key v sid ∈ (hbrPhase hb v sid reg conf).1) := by
  refine ⟨fun r r2 hr hok => ?_, fun r e nr hr herr hinv hnew => ?_,
          fun r e hr herr hinv => ?_, fun nr hr hnew => ?_⟩
  · constructor <;> simp [hbrPhase, hr, hok]
  · refine ⟨?_, ?_, ?_⟩ <;> simp [hbrPhase, hr, herr, hinv, hnew, warnCount, Event.isWarn]
  · refine ⟨?_, ?_, ?_⟩ <;> simp [hbrPhase, hr, herr, hinv, warnCount, Event.isWarn]
  · constructor <;> simp [hbrPhase, hr, hnew]

/-- Witness for C3: a registry caching record id-a whose revalidation
reports the invalid-backup error ends up with the newly created record
and its address, after one warning. -/
theorem c3_backup_record_negotiation_witness :
    (hbrPhase
        { okHub with get_backup_record := fun _ => Except.error (HubErr.invalidBackup "gone") }
        "16.0" none { key := "key1", hbr := some ⟨"id-a", "s3://bucket/a", "key1"⟩ } {}).2 =
      Except.ok
        ({ key := "key1", hbr := some ⟨"id-new", "s3://bucket/new", "key1"⟩ },
         { ({} : Conf) with address := some "s3://bucket/new" }) ∧
    Event.callNewBackupRecord "key1" "16.0" none ∈
      (hbrPhase
        { okHub with get_backup_record := fun _ => Except.error (HubErr.invalidBackup "gone") }
        "16.0" none { key := "key1", hbr := some ⟨"id-a", "s3://bucket/a", "key1"⟩ } {}).1 ∧
    warnCount
      (hbrPhase
        { okHub with get_backup_record := fun _ => Except.error (HubErr.invalidBackup "gone") }
        "16.0" none { key := "key1", hbr := some ⟨"id-a", "s3://bucket/a", "key1"⟩ } {}).1 = 1 :=
  ((c3_backup_record_negotiation
        { okHub with get_backup_record := fun _ => Except.error (HubErr.invalidBackup "gone") }
        "16.0" none { key := "key1", hbr := some ⟨"id-a", "s3://bucket/a", "key1"⟩ } {}).2.1
      ⟨"id-a", "s3://bucket/a", "key1"⟩ (HubErr.invalidBackup "gone")
      ⟨"id-new", "s3://bucket/new", "key1"⟩ rfl rfl rfl rfl)

/-- C5.  Explicit resume: with the resume flag set the run fails fatally
when simulate mode is also set (whatever the rest of the state), fails
fatally when the registry holds no resumable configuration, and
otherwise the working configuration is replaced wholesale by the stored
one. -/
theorem c5_explicit_resume (reg : Registry) (conf : Conf) :
    (conf.simulate = true →
        (sessionPhase reg conf true).2 =
          Except.error (Exn.fatalExit "--resume and --simulate incompatible")) ∧
    (conf.simulate = false → reg.backup_resume_conf = none →
        (sessionPhase reg conf true).2 =
          Except.error (Exn.fatalExit "no previous backup session to resume from")) ∧
    (∀ stored, conf.simulate = false → reg.backup_resume_conf = some stored →
        (sessionPhase reg conf true).2 = Except.ok (stored, true)) := by
  refine ⟨fun hsim => ?_, fun hsim hnone => ?_, fun stored hsim hsome => ?_⟩
  · simp [sessionPhase, hsim]
  · simp [sessionPhase, hsim, hnone]
  · simp [sessionPhase, hsim, hsome]

/-- Witness for C5: a non-simulated explicit resume with a stored
configuration of volsize 42 adopts that stored configuration, while a
simulated explicit resume is fatal. -/
theorem c5_explicit_resume_witness :
    (sessionPhase { backup_resume_conf := some { volsize := 42 } } {} true).2 =
      Except.ok (({ volsize := 42 } : Conf), true) ∧
    (sessionPhase {} { simulate := true } true).2 =
      Except.error (Exn.fatalExit "--resume and --simulate incompatible") :=
  ⟨(c5_explicit_resume { backup_resume_conf := some { volsize := 42 } } {}).2.2
      { volsize := 42 } rfl rfl,
   (c5_explicit_resume {} { simulate := true }).1 rfl⟩

/-- C6.  Re-arm invariant: right after the session is resolved the
resumable-configuration slot is cleared and re-set to the governing
configuration exactly when simulate mode is off, so a non-simulated run
leaves the slot equal to the current configuration and a simulated run
leaves it empty. -/
theorem c6_rearm_invariant (reg : Registry) (conf : Conf) :
    (rearm reg conf).backup_resume_conf =
      (if conf.simulate then none else some conf) := by
  by_cases h : conf.simulate <;> simp [rearm, h]

/-- C8.  Failure path: an exception escaping the pre hook, the engine
run or the post hook is re-raised by the supervisor, and engine cleanup
is invoked exactly when the checkpoint-restore flag is unset. -/
theorem c8_failure_cleanup (w : RunWorld) (opt_debug : Bool) (reg : Registry) (conf : Conf)
    (opt_resume : Bool) (r : BackupRecord) (e : Exn)
    (hr : reg.hbr = some r) (he : bodyExn w = some e) :
    (supervisor w opt_debug reg conf opt_resume).2 = Except.error e ∧
    (Event.engineCleanup ∈ (supervisor w opt_debug reg conf opt_resume).1 ↔
      conf.checkpoint_restore = false) := by
  constructor
  · simp [supervisor, hr, he]
  · cases hcp : conf.checkpoint_restore <;>
      cases hpre : w.preExn <;>
      cases hiha : is_hub_address reg conf <;>
      cases opt_debug <;>
      simp [supervisor, hr, he, hcp, hpre, hiha, bodyEvents]

/-- Witness for C8: a run whose engine raises, under a configuration
with checkpoint-restore unset, re-raises the engine error and the
cleanup invocation appears in the trace. -/
theorem c8_failure_cleanup_witness :
    (supervisor { runExn := some (Exn.engineError "boom") } false
        { hbr := some ⟨"id-a", "s3://bucket/a", "key1"⟩ } {} false).2 =
      Except.error (Exn.engineError "boom") ∧
    (Event.engineCleanup ∈
        (supervisor { runExn := some (Exn.engineError "boom") } false
          { hbr := some ⟨"id-a", "s3://bucket/a", "key1"⟩ } {} false).1 ↔
      ({} : Conf).checkpoint_restore = false) :=
  c8_failure_cleanup { runExn := some (Exn.engineError "boom") } false
    { hbr := some ⟨"id-a", "s3://bucket/a", "key1"⟩ } {} false
    ⟨"id-a", "s3://bucket/a", "key1"⟩ (Exn.engineError "boom") rfl rfl

/-- C9.  Success path: when the guarded body completes, a simulated run
skips engine cleanup, prints the operator message and never notifies
`updated_backup`; a non-simulated run invokes engine cleanup, leaves
the resumable-configuration slot empty and sends the `updated_backup`
notification for the session address. -/
theorem c9_success_path (w : RunWorld) (opt_debug : Bool) (reg : Registry) (conf : Conf)
    (opt_resume : Bool) (r : BackupRecord)
    (hr : reg.hbr = some r) (hok : bodyExn w = none) :
    (conf.simulate = true →
        Event.engineCleanup ∉ (supervisor w opt_debug reg conf opt_resume).1 ∧
        Event.printMsg
            ("Completed --simulate: Leaving /TKLBAM intact so you can manually inspect it")
          ∈ (supervisor w opt_debug reg conf opt_resume).1 ∧
        (∀ a, Event.callUpdatedBackup a ∉ (supervisor w opt_debug reg conf opt_resume).1)) ∧
    (conf.simulate = false →
        Event.engineCleanup ∈ (supervisor w opt_debug reg conf opt_resume).1 ∧
        (supervisor w opt_debug reg conf opt_resume).2 =
          Except.ok { reg with backup_resume_conf := none } ∧
        Event.callUpdatedBackup conf.address ∈ (supervisor w opt_debug reg conf opt_resume).1) := by
  have hpre : w.preExn = none := by
    revert hok; unfold bodyExn; cases w.preExn <;> simp
  refine ⟨fun hsim => ?_, fun hsim => ?_⟩
  · refine ⟨?_, ?_, fun a => ?_⟩ <;>
      cases hiha : is_hub_address reg conf <;>
      cases opt_debug <;>
      simp [supervisor, hr, hok, hsim, hpre, hiha, bodyEvents]
  · refine ⟨?_, ?_, ?_⟩ <;>
      cases hiha : is_hub_address reg conf <;>
      cases opt_debug <;>
      simp [supervisor, hr, hok, hsim, hpre, hiha, bodyEvents]

/-- Witness for C9: a successful non-simulated run over a cached record
cleans up, empties the resumable slot and notifies `updated_backup`
for the session address. -/
theorem c9_success_path_witness :
    Event.engineCleanup ∈
        (supervisor {} false
          { hbr := some ⟨"id-a", "s3://bucket/a", "key1"⟩,
            backup_resume_conf := some {} } { address := some "s3://bucket/a" } false).1 ∧
    (supervisor {} false
        { hbr := some ⟨"id-a", "s3://bucket/a", "key1"⟩,
          backup_resume_conf := some {} } { address := some "s3://bucket/a" } false).2 =
      Except.ok { hbr := some ⟨"id-a", "s3://bucket/a", "key1"⟩, backup_resume_conf := none } ∧
    Event.callUpdatedBackup (some "s3://bucket/a") ∈
        (supervisor {} false
          { hbr := some ⟨"id-a", "s3://bucket/a", "key1"⟩,
            backup_resume_conf := some {} } { address := some "s3://bucket/a" } false).1 :=
  (c9_success_path {} false
      { hbr := some ⟨"id-a", "s3://bucket/a", "key1"⟩, backup_resume_conf := some {} }
      { address := some "s3://bucket/a" } false
      ⟨"id-a", "s3://bucket/a", "key1"⟩ rfl rfl).2 rfl

/-- Counterexample to C7 as stated: a simulated session whose target
address was obtained from the Hub (no manual address: the record
created by the Hub supplies it) runs the engine without ever sending an
in-progress notification, because `is_hub_address` also requires
simulate mode to be off. -/
theorem c7_counterexample :
    Event.engineRun ∈
        (tklbamMain okHub "16.0" none {} false {}
          { simulate := true, profile := some ⟨5⟩ } false).events ∧
    (tklbamMain okHub "16.0" none {} false {}
        { simulate := true, profile := some ⟨5⟩ } false).events.all
      (fun ev => !ev.isSetInprogress) = true := by
  constructor <;> decide

/-- C7 amended.  For a non-simulated run whose cached backup record's
address equals the session's target address, the no-longer-in-progress
notification for the record's backup id is sent on every exit path of
the guarded block; when the pre hook completes, the in-progress
notification for the same id is sent before the engine runs and the
matching stop notification follows.  In simulate mode no in-progress
notification of either kind is ever sent. -/
theorem c7_inprogress_mirroring (w : RunWorld) (opt_debug : Bool) (reg : Registry)
    (conf : Conf) (opt_resume : Bool) :
    (∀ r, reg.hbr = some r → conf.simulate = false → some r.address = conf.address →
        Event.callSetInprogress r.backup_id false ∈
          (supervisor w opt_debug reg conf opt_resume).1 ∧
        (w.preExn = none →
          ∃ tail, (supervisor w opt_debug reg conf opt_resume).1 =
            Event.backupCtor opt_resume :: Event.callSetInprogress r.backup_id true ::
              Event.engineRun :: Event.callSetInprogress r.backup_id false :: tail)) ∧
    (conf.simulate = true →
        (supervisor w opt_debug reg conf opt_resume).1.all
          (fun ev => !ev.isSetInprogress) = true) := by
  constructor
  · intro r hr hsim haddr
    have hiha : is_hub_address reg conf = true := by
      simp [is_hub_address, hr, hsim]
      exact haddr
    constructor
    · cases hbe : bodyExn w <;>
        cases hpre : w.preExn <;>
        cases opt_debug <;>
        simp [supervisor, hr, hiha, hbe, hpre, hsim, bodyEvents]
    · intro hpre
      cases hbe : bodyExn w <;>
        cases opt_debug <;>
        simp [supervisor, hr, hiha, hbe, hpre, hsim, bodyEvents]
  · intro hsim
    have hiha : is_hub_address reg conf = false := by simp [is_hub_address, hsim]
    cases hr : reg.hbr <;>
      cases hbe : bodyExn w <;>
      cases hpre : w.preExn <;>
      cases opt_debug <;>
      cases hcp : conf.checkpoint_restore <;>
      simp_all [supervisor, bodyEvents, bodyExn, Event.isSetInprogress, hiha, hsim]

/-- Witness for C7 amended: a failing engine run over a matching cached
record still sends the stop notification, and a completing pre hook
yields the ordered start / run / stop trace. -/
theorem c7_inprogress_mirroring_witness :
    Event.callSetInprogress "id-a" false ∈
        (supervisor { runExn := some (Exn.engineError "boom") } false
          { hbr := some ⟨"id-a", "s3://bucket/a", "key1"⟩ }
          { address := some "s3://bucket/a" } false).1 ∧
    (∃ tail, (supervisor { runExn := some (Exn.engineError "boom") } false
          { hbr := some ⟨"id-a", "s3://bucket/a", "key1"⟩ }
          { address := some "s3://bucket/a" } false).1 =
        Event.backupCtor false :: Event.callSetInprogress "id-a" true ::
          Event.engineRun :: Event.callSetInprogress "id-a" false :: tail) := by
  have h := ((c7_inprogress_mirroring { runExn := some (Exn.engineError "boom") } false
      { hbr := some ⟨"id-a", "s3://bucket/a", "key1"⟩ }
      { address := some "s3://bucket/a" } false).1
    ⟨"id-a", "s3://bucket/a", "key1"⟩ rfl rfl rfl)
  exact ⟨h.1, h.2 rfl⟩

/-- Every event of the profile phase is a `get_new_profile` call or a
warning, so any predicate true on those holds over its whole trace. -/
theorem profilePhase_all (hb : Hub) (v : String) (reg : Registry) (conf : Conf)
    (p : Event → Bool)
    (h1 : ∀ v2 ts, p (Event.callGetNewProfile v2 ts) = true)
    (h2 : ∀ m, p (Event.warn m) = true) :
    (profilePhase hb v reg conf).1.all p = true := by
  by_cases hpc : conf.profile.isNone
  · rcases hrp : reg.profile with _ | q
    · rcases hg : hb.get_new_profile v none with e | np
      · simp [profilePhase, hpc, get_profile, hrp, hg, h1]
      · simp [profilePhase, hpc, get_profile, hrp, hg, h1]
    · rcases hg : hb.get_new_profile v (some q.timestamp) with e | np
      · simp [profilePhase, hpc, get_profile, hrp, hg, h1, h2]
      · simp [profilePhase, hpc, get_profile, hrp, hg, h1]
  · simp [profilePhase, hpc]

/-- On success the profile phase only rewrites the profile field: the
governing configuration and the registry are otherwise untouched. -/
theorem profilePhase_ok_fields (hb : Hub) (v : String) (reg : Registry) (conf : Conf)
    (evs : List Event) (reg' : Registry) (conf' : Conf)
    (h : profilePhase hb v reg conf = (evs, Except.ok (reg', conf'))) :
    conf'.address = conf.address ∧ conf'.simulate = conf.simulate ∧
    reg'.credentials = reg.credentials ∧ reg'.hbr = reg.hbr ∧
    reg'.backup_resume_conf = reg.backup_resume_conf := by
  by_cases hpc : conf.profile.isNone
  · rcases hrp : reg.profile with _ | q
    · rcases hg : hb.get_new_profile v none with e | np
      · simp [profilePhase, hpc, get_profile, hrp, hg] at h
      · rcases np with _ | pp <;>
          · simp [profilePhase, hpc, get_profile, hrp, hg] at h
            obtain ⟨h1, h2, h3⟩ := h
            subst h2; subst h3; simp
    · rcases hg : hb.get_new_profile v (some q.timestamp) with e | np
      · simp [profilePhase, hpc, get_profile, hrp, hg] at h
        obtain ⟨h1, h2, h3⟩ := h
        subst h2; subst h3; simp
      · rcases np with _ | pp <;>
          · simp [profilePhase, hpc, get_profile, hrp, hg] at h
            obtain ⟨h1, h2, h3⟩ := h
            subst h2; subst h3; simp
  · simp [profilePhase, hpc] at h
    obtain ⟨h1, h2, h3⟩ := h
    subst h2; subst h3; simp

/-- With a manual target address present, the negotiation phase does
nothing at all. -/
theorem negotiationPhase_skip (hb : Hub) (v : String) (sid : Option String)
    (reg : Registry) (conf : Conf) (h : conf.address.isNone = false) :
    negotiationPhase hb v sid reg conf = ([], Except.ok (reg, conf)) := by
  simp [negotiationPhase, h]

/-- The resume decision prints at most a resuming notice: any predicate
true on prints holds over its trace. -/
theorem sessionPhase_all (reg : Registry) (conf : Conf) (b : Bool) (p : Event → Bool)
    (h : ∀ m, p (Event.printMsg m) = true) :
    (sessionPhase reg conf b).1.all p = true := by
  rw [sessionPhase]
  split
  · split
    · simp
    · split <;> simp [h]
  · split <;> simp [h]

/-- Re-arming only rewrites the resumable-configuration slot. -/
theorem rearm_fields (reg : Registry) (conf : Conf) :
    (rearm reg conf).credentials = reg.credentials ∧
    (rearm reg conf).hbr = reg.hbr := by
  by_cases hs : conf.simulate <;> simp [rearm, hs]

/-- The supervisor's trace holds any predicate true on the engine
construction, run, cleanup, notification, print and log-flush events. -/
theorem supervisor_all (w : RunWorld) (o : Bool) (reg : Registry) (conf : Conf) (b : Bool)
    (p : Event → Bool)
    (hctor : ∀ x, p (Event.backupCtor x) = true)
    (hrun : p Event.engineRun = true)
    (hset : ∀ id x, p (Event.callSetInprogress id x) = true)
    (hflush : p Event.logFlush = true)
    (hclean : p Event.engineCleanup = true)
    (hprint : ∀ m, p (Event.printMsg m) = true)
    (hupd : ∀ a, p (Event.callUpdatedBackup a) = true) :
    (supervisor w o reg conf b).1.all p = true := by
  obtain ⟨wpre, wrun, wpost⟩ := w
  rcases hr : reg.hbr with _ | r <;>
    rcases wpre with _ | e1 <;>
    rcases wrun with _ | e2 <;>
    rcases wpost with _ | e3 <;>
    cases o <;>
    rcases hcp : conf.checkpoint_restore <;>
    rcases hs : conf.simulate <;>
    rcases hiha : is_hub_address reg conf <;>
    simp [supervisor, bodyEvents, bodyExn, hr, hcp, hs, hiha,
          hctor, hrun, hset, hflush, hclean, hprint, hupd]

/-- When the supervisor returns normally, the final registry is the
entry registry with the resumable slot cleared. -/
theorem supervisor_ok_reg (w : RunWorld) (o : Bool) (reg : Registry) (conf : Conf)
    (b : Bool) (evs : List Event) (reg' : Registry)
    (h : supervisor w o reg conf b = (evs, Except.ok reg')) :
    reg' = { reg with backup_resume_conf := none } := by
  rcases hr : reg.hbr with _ | r
  · simp [supervisor, hr] at h
  · rcases hbe : bodyExn w with _ | e
    · simp [supervisor, hr, hbe] at h
      exact h.2.symm
    · simp [supervisor, hr, hbe] at h

/-- With no cached backup record, the supervisor fails at the unguarded
`registry.hbr.backup_id` access before constructing the engine. -/
theorem supervisor_no_hbr (w : RunWorld) (o : Bool) (reg : Registry) (conf : Conf)
    (b : Bool) (h : reg.hbr = none) :
    supervisor w o reg conf b = ([], Except.error Exn.attrError) := by
  simp [supervisor, h]

/-- The s3-parallel-uploads sanity check emits at most one warning. -/
theorem s3warn_all (conf : Conf) (p : Event → Bool) (h : ∀ m, p (Event.warn m) = true) :
    (if conf.s3_parallel_uploads > 1 ∧ conf.s3_parallel_uploads > conf.volsize / 5 then
        [Event.warn ("s3-parallel-uploads > volsize / 5 (minimum upload chunk is 5MB)")]
      else []).all p = true := by
  split <;> simp [h]

/-- Without the resume flag the resume decision keeps the working
configuration and never fails; it only may turn on the implicit-resume
flag with a notice. -/
theorem sessionPhase_false (reg : Registry) (conf : Conf) :
    ∃ b, sessionPhase reg conf false =
      ((if b then [Event.printMsg ("ATTEMPTING TO RESUME ABORTED SESSION")] else []),
       Except.ok (conf, b)) := by
  rw [sessionPhase]
  rw [if_neg (by simp : ¬ (false = true))]
  split
  · exact ⟨true, rfl⟩
  · exact ⟨false, rfl⟩

/-- C4.  With a manual target address, the whole session makes no
`get_credentials`, `get_backup_record` or `new_backup_record` call, and
when it completes normally the registry's credentials and backup-record
entries are those it started with. -/
theorem c4_manual_address_skips_negotiation (hb : Hub) (v : String) (sid : Option String)
    (w : RunWorld) (opt_debug : Bool) (reg : Registry) (conf : Conf) (opt_resume : Bool)
    (a : String) (ha : conf.address = some a) :
    ((tklbamMain hb v sid w opt_debug reg conf opt_resume).events.all
        (fun ev => !ev.isNegotiationCall) = true) ∧
    (∀ reg' conf',
        (tklbamMain hb v sid w opt_debug reg conf opt_resume).outcome =
          Except.ok (reg', conf') →
        reg'.credentials = reg.credentials ∧ reg'.hbr = reg.hbr) := by
  have hs3 := s3warn_all conf (fun ev => !ev.isNegotiationCall) (fun _ => rfl)
  rcases h1 : profilePhase hb v reg conf with ⟨evs1, r1⟩
  have hall1 : evs1.all (fun ev => !ev.isNegotiationCall) = true := by
    have := profilePhase_all hb v reg conf (fun ev => !ev.isNegotiationCall)
      (fun _ _ => rfl) (fun _ => rfl)
    rw [h1] at this; exact this
  rcases r1 with e1 | ⟨reg1, conf1⟩
  · refine ⟨?_, fun reg' conf' hok => ?_⟩
    · simp [tklbamMain, h1, hall1, hs3]
    · simp [tklbamMain, h1] at hok
  · obtain ⟨hf1, hf2, hf3, hf4, hf5⟩ := profilePhase_ok_fields hb v reg conf evs1 reg1 conf1 h1
    have hneg : negotiationPhase hb v sid reg1 conf1 = ([], Except.ok (reg1, conf1)) :=
      negotiationPhase_skip hb v sid reg1 conf1 (by rw [hf1, ha]; rfl)
    rcases h3 : sessionPhase reg1 conf1 opt_resume with ⟨evs3, r3⟩
    have hall3 : evs3.all (fun ev => !ev.isNegotiationCall) = true := by
      have := sessionPhase_all reg1 conf1 opt_resume (fun ev => !ev.isNegotiationCall)
        (fun _ => rfl)
      rw [h3] at this; exact this
    rcases r3 with e3 | ⟨conf3, resume3⟩
    · refine ⟨?_, fun reg' conf' hok => ?_⟩
      · simp [tklbamMain, h1, hneg, h3, hall1, hall3, hs3]
      · simp [tklbamMain, h1, hneg, h3] at hok
    · rcases h4 : supervisor w opt_debug (rearm reg1 conf3) conf3 resume3 with ⟨evs4, r4⟩
      have hall4 : evs4.all (fun ev => !ev.isNegotiationCall) = true := by
        have := supervisor_all w opt_debug (rearm reg1 conf3) conf3 resume3
          (fun ev => !ev.isNegotiationCall)
          (fun _ => rfl) rfl (fun _ _ => rfl) rfl rfl (fun _ => rfl) (fun _ => rfl)
        rw [h4] at this; exact this
      rcases r4 with e4 | reg4
      · refine ⟨?_, fun reg' conf' hok => ?_⟩
        · simp [tklbamMain, h1, hneg, h3, h4, hall1, hall3, hall4, hs3]
        · simp [tklbamMain, h1, hneg, h3, h4] at hok
      · refine ⟨?_, fun reg' conf' hok => ?_⟩
        · simp [tklbamMain, h1, hneg, h3, h4, hall1, hall3, hall4, hs3]
        · simp [tklbamMain, h1, hneg, h3, h4] at hok
          have hreg4 :=
            supervisor_ok_reg w opt_debug (rearm reg1 conf3) conf3 resume3 evs4 reg4 h4
          obtain ⟨hra, hrb⟩ := rearm_fields reg1 conf3
          have hcred : reg4.credentials = reg.credentials := by
            rw [hreg4]; simpa [hra] using hf3
          have hhbr : reg4.hbr = reg.hbr := by
            rw [hreg4]; simpa [hrb] using hf4
          rw [← hok.1, hcred, hhbr]
          exact ⟨rfl, rfl⟩

/-- Witness for C4: a concrete session with a manual address and a
cached record completes with zero negotiation calls and the registry
entries intact. -/
theorem c4_manual_address_skips_negotiation_witness :
    ((tklbamMain downHub "16.0" none {} false
        { hbr := some ⟨"id-a", "s3://a", "k"⟩ }
        { address := some "s3://manual", profile := some ⟨1⟩ } false).events.all
      (fun ev => !ev.isNegotiationCall) = true) ∧
    (({ hbr := some ⟨"id-a", "s3://a", "k"⟩ } : Registry).credentials =
        ({ hbr := some ⟨"id-a", "s3://a", "k"⟩ } : Registry).credentials ∧
      ({ hbr := some ⟨"id-a", "s3://a", "k"⟩ } : Registry).hbr =
        ({ hbr := some ⟨"id-a", "s3://a", "k"⟩ } : Registry).hbr) :=
  ⟨(c4_manual_address_skips_negotiation downHub "16.0" none {} false
      { hbr := some ⟨"id-a", "s3://a", "k"⟩ }
      { address := some "s3://manual", profile := some ⟨1⟩ } false "s3://manual" rfl).1,
   (c4_manual_address_skips_negotiation downHub "16.0" none {} false
      { hbr := some ⟨"id-a", "s3://a", "k"⟩ }
      { address := some "s3://manual", profile := some ⟨1⟩ } false "s3://manual" rfl).2
     { hbr := some ⟨"id-a", "s3://a", "k"⟩ }
     { address := some "s3://manual", profile := some ⟨1⟩ } rfl⟩

/-- C10.  A run with a manual address and no cached backup record that
survives the profile phase aborts with the unguarded
`registry.hbr.backup_id` attribute error, before the engine is
constructed, run or cleaned up. -/
theorem c10_manual_address_no_hbr (hb : Hub) (v : String) (sid : Option String)
    (w : RunWorld) (opt_debug : Bool) (reg : Registry) (conf : Conf) (a : String)
    (evs1 : List Event) (reg1 : Registry) (conf1 : Conf)
    (ha : conf.address = some a) (hh : reg.hbr = none)
    (h1 : profilePhase hb v reg conf = (evs1, Except.ok (reg1, conf1))) :
    (tklbamMain hb v sid w opt_debug reg conf false).outcome = Except.error Exn.attrError ∧
    (tklbamMain hb v sid w opt_debug reg conf false).events.all
      (fun ev => !ev.isEngineEvent) = true := by
  have hs3 := s3warn_all conf (fun ev => !ev.isEngineEvent) (fun _ => rfl)
  have hall1 : evs1.all (fun ev => !ev.isEngineEvent) = true := by
    have := profilePhase_all hb v reg conf (fun ev => !ev.isEngineEvent)
      (fun _ _ => rfl) (fun _ => rfl)
    rw [h1] at this; exact this
  obtain ⟨hf1, hf2, hf3, hf4, hf5⟩ := profilePhase_ok_fields hb v reg conf evs1 reg1 conf1 h1
  have hneg : negotiationPhase hb v sid reg1 conf1 = ([], Except.ok (reg1, conf1)) :=
    negotiationPhase_skip hb v sid reg1 conf1 (by rw [hf1, ha]; rfl)
  obtain ⟨b, h3⟩ := sessionPhase_false reg1 conf1
  have hsup : supervisor w opt_debug (rearm reg1 conf1) conf1 b =
      ([], Except.error Exn.attrError) :=
    supervisor_no_hbr w opt_debug (rearm reg1 conf1) conf1 b
      (by rw [(rearm_fields reg1 conf1).2, hf4, hh])
  constructor
  · simp [tklbamMain, h1, hneg, h3, hsup]
  · cases b <;> simp_all [tklbamMain, Event.isEngineEvent]

/-- Witness for C10: a manual address with an empty registry over a
healthy Hub aborts with the attribute error and no engine event. -/
theorem c10_manual_address_no_hbr_witness :
    (tklbamMain okHub "16.0" none {} false {}
        { address := some "s3://manual" } false).outcome = Except.error Exn.attrError ∧
    (tklbamMain okHub "16.0" none {} false {}
        { address := some "s3://manual" } false).events.all
      (fun ev => !ev.isEngineEvent) = true :=
  c10_manual_address_no_hbr okHub "16.0" none {} false {}
    { address := some "s3://manual" } "s3://manual"
    [Event.callGetNewProfile "16.0" none]
    { profile := some ⟨7⟩ }
    { address := some "s3://manual", profile := some ⟨7⟩ } rfl rfl rfl

end Tklbam
